import Mathlib

/-!
Verification of the configuration / credential-matching subsystem of
`invest_auto_stack` (modules `grand_trade_auto/general/config.py` and
`grand_trade_auto/database/database_meta.py`), shallowly embedded in Lean.

Python exceptions are modelled by the `PyErr` type and fallible Python
functions by `Except PyErr`.  Python strings are modelled by `String`
(operated on through their `List Char` data); Python builtins used by the
source (`str.strip`, `str.lower`, `str.split`, `int`, `float`,
`configparser`, `os.path.join`, the file system) are modelled explicitly
below, each with a comment stating what it models.
-/

/-- The Python exception kinds raised or caught by the embedded code.
`assertionError` is what a failed `assert` raises (the spec's taxonomy calls
the one in `matches_id_criteria` `InvalidCriteriaError`); `parseError`
stands for `configparser`'s parsing errors. -/
inductive PyErr where
  | typeError (msg : String)
  | valueError (msg : String)
  | fileNotFoundError (path : String)
  | assertionError
  | parseError (msg : String)
deriving DecidableEq

/-- Models Python's whitespace test used by `str.strip()` for the ASCII
whitespace characters (space, tab, newline, carriage return, vertical tab,
form feed). -/
def isPySpace (c : Char) : Bool :=
  c.toNat = 32 || c.toNat = 9 || c.toNat = 10 || c.toNat = 13 ||
  c.toNat = 11 || c.toNat = 12

/-- Drops every leading and trailing character satisfying `p`; the common
core of Python's `str.strip()` and `str.strip(chars)`. -/
def stripBothWith (p : Char → Bool) (l : List Char) : List Char :=
  ((l.dropWhile p).reverse.dropWhile p).reverse

/-- Models Python's `str.strip()` (no argument: strips whitespace). -/
def pyStrip (s : String) : String :=
  String.mk (stripBothWith isPySpace s.data)

/-- Models Python's `str.strip(chars)`: drops ALL leading and trailing
characters belonging to `chars`, in any order and any number. -/
def pyStripChars (chars : List Char) (s : String) : String :=
  String.mk (stripBothWith (fun c => chars.contains c) s.data)

/-- The quote characters of `str.strip('\x27"')` in
`parse_list_from_conf_string`: the single-quote (39) and double-quote (34)
characters. -/
def quoteChars : List Char := [Char.ofNat 39, Char.ofNat 34]

/-- Is `c` one of the two quote characters? -/
def isQuoteChar (c : Char) : Bool := quoteChars.contains c

/-- Models Python's `str.lower()` on one ASCII character. -/
def pyCharLower (c : Char) : Char :=
  if 65 ≤ c.toNat && c.toNat ≤ 90 then Char.ofNat (c.toNat + 32) else c

/-- Models Python's `str.lower()` (ASCII fragment). -/
def pyLower (s : String) : String :=
  String.mk (s.data.map pyCharLower)

/-- Worker for `str.split(sep)` with a non-empty separator `c0 :: sepRest`.
The `fuel` argument only bounds the recursion (each step consumes at least
one character, so `l.length + 1` fuel always suffices); it keeps the
definition structurally recursive so that it evaluates by kernel
reduction. -/
def splitOnFuel (c0 : Char) (sepRest : List Char) : Nat → List Char → List (List Char)
  | 0, l => [l]
  | _fuel + 1, [] => [[]]
  | fuel + 1, c :: rest =>
    if c = c0 && sepRest.isPrefixOf rest then
      [] :: splitOnFuel c0 sepRest fuel (rest.drop sepRest.length)
    else
      match splitOnFuel c0 sepRest fuel rest with
      | [] => [[c]]
      | h :: t => (c :: h) :: t

/-- Models Python's `str.split(sep)` for a non-empty separator (every
occurrence splits; empty parts are kept).  For the empty separator it is
never used directly: see `pySplit`. -/
def pySplitRaw (s sep : String) : List String :=
  match sep.data with
  | [] => [s]
  | c0 :: rest => (splitOnFuel c0 rest (s.data.length + 1) s.data).map String.mk

/-- Models Python's `str.split(sep)` including its error behavior:
`split` with an empty separator raises `ValueError: empty separator`. -/
def pySplit (s sep : String) : Except PyErr (List String) :=
  if sep = "" then .error (.valueError "empty separator")
  else .ok (pySplitRaw s sep)

/-- Is `c` an ASCII decimal digit? -/
def isDigitChar (c : Char) : Bool := 48 ≤ c.toNat && c.toNat ≤ 57

/-- Numeric value of a list of ASCII digits (most significant first). -/
def digitsVal (l : List Char) : Nat :=
  l.foldl (fun a c => a * 10 + (c.toNat - 48)) 0

/-- Tail of Python's digit-group grammar: digits with single underscores
allowed only between digits (an underscore must be followed by a digit). -/
def digitsTail : List Char → Bool
  | [] => true
  | '_' :: [] => false
  | '_' :: d :: rest => isDigitChar d && digitsTail rest
  | c :: rest => isDigitChar c && digitsTail rest

/-- Python's digit-group grammar: non-empty, starts with a digit,
underscores only between digits. -/
def digitsOkU (l : List Char) : Bool :=
  match l with
  | [] => false
  | c :: rest => isDigitChar c && digitsTail rest

/-- Splits the leading run of digit/underscore characters from a list,
returning the run and the remainder. -/
def digitRun : List Char → List Char × List Char
  | [] => ([], [])
  | c :: rest =>
    if isDigitChar c || c = '_' then
      let r := digitRun rest
      (c :: r.1, r.2)
    else ([], c :: rest)

/-- Splits an optional leading sign, returning (isNegative, remainder). -/
def signSplit : List Char → Bool × List Char
  | [] => (false, [])
  | c :: rest =>
    if c = '+' then (false, rest)
    else if c = '-' then (true, rest)
    else (false, c :: rest)

/-- Models Python's `int(s)` for a string argument: optional surrounding
whitespace, optional sign, then a digit group (underscores between digits
allowed).  `none` models `ValueError`. -/
def pyIntCore (s : String) : Option Int :=
  let t := stripBothWith isPySpace s.data
  let sg := signSplit t
  let ds := sg.2
  if digitsOkU ds then
    some ((if sg.1 then -1 else 1) * (digitsVal (ds.filter (fun c => c ≠ '_')) : Int))
  else none

/-- Models Python's `int(s)` with its `ValueError` on a bad literal. -/
def pyInt (s : String) : Except PyErr Int :=
  match pyIntCore s with
  | some n => .ok n
  | none => .error (.valueError ("invalid literal for int() with base 10: " ++ s))

/-- The value of a Python `float`.  A finite value is modelled by the exact
decimal rational the literal denotes (binary64 rounding is not modelled; no
verified claim inspects a float value). -/
inductive PyFloat where
  | finite (q : Rat)
  | inf (neg : Bool)
  | nan
deriving DecidableEq

/-- `10 ^ n` as a rational. -/
def pow10 (n : Nat) : Rat := (10 : Rat) ^ n

/-- The rational denoted by a parsed decimal float literal: sign, integer
digits, fraction digits, exponent sign and exponent digits (digit lists may
still contain underscores, which carry no value). -/
def ratOfDecimal (neg : Bool) (ip fp : List Char) (expNeg : Bool) (ed : List Char) : Rat :=
  let fpd := fp.filter (fun c => c ≠ '_')
  let m : Rat := (digitsVal (ip.filter (fun c => c ≠ '_')) : Rat) +
    (digitsVal fpd : Rat) / pow10 fpd.length
  let e := digitsVal (ed.filter (fun c => c ≠ '_'))
  let mag := if expNeg then m / pow10 e else m * pow10 e
  if neg then -mag else mag

/-- Models Python's `float(s)` grammar: optional whitespace and sign, then
`inf`/`infinity`/`nan` (case-insensitive) or a decimal literal
`digits [. digits] [(e|E) [sign] digits]` with at least one mantissa digit,
underscores between digits allowed.  `none` models `ValueError`. -/
def pyFloatCore (s : String) : Option PyFloat :=
  let t := stripBothWith isPySpace s.data
  let sg := signSplit t
  let body := sg.2
  let low := body.map pyCharLower
  if low = ['i', 'n', 'f'] || low = ['i', 'n', 'f', 'i', 'n', 'i', 't', 'y'] then
    some (PyFloat.inf sg.1)
  else if low = ['n', 'a', 'n'] then
    some PyFloat.nan
  else
    let ipr := digitRun body
    let ip := ipr.1
    let dotSplit : Bool × List Char :=
      match ipr.2 with
      | c :: rest => if c = '.' then (true, rest) else (false, c :: rest)
      | [] => (false, [])
    let fpr := if dotSplit.1 then digitRun dotSplit.2 else ([], dotSplit.2)
    let fp := fpr.1
    let mOk := (ip.isEmpty || digitsOkU ip) && (fp.isEmpty || digitsOkU fp) &&
      !(ip.isEmpty && fp.isEmpty)
    match fpr.2 with
    | [] => if mOk then some (PyFloat.finite (ratOfDecimal sg.1 ip fp false [])) else none
    | c :: rest =>
      if c = 'e' || c = 'E' then
        let esg := signSplit rest
        let edr := digitRun esg.2
        if mOk && digitsOkU edr.1 && edr.2.isEmpty then
          some (PyFloat.finite (ratOfDecimal sg.1 ip fp esg.1 edr.1))
        else none
      else none

/-- Models Python's `float(s)` with its `ValueError` on a bad literal. -/
def pyFloat (s : String) : Except PyErr PyFloat :=
  match pyFloatCore s with
  | some v => .ok v
  | none => .error (.valueError ("could not convert string to float: " ++ s))

/-- The `CastType` enum of `config.py` (`INT`, `FLOAT`, `STRING`), extended
by `UNSUPPORTED`, which stands for any Python value passed as `cast_type`
that is not one of the three `CastType` members (the source compares
`cast_type` against each member and treats everything else as
unsupported). -/
inductive CastType where
  | INT
  | FLOAT
  | STRING
  | UNSUPPORTED
deriving DecidableEq

/-- A value produced by `cast_var`: an int, a float, or a string (in the
configuration subsystem the cast input is always a string, so a fallback
returns the original string). -/
inductive PyVal where
  | int (n : Int)
  | float (x : PyFloat)
  | str (s : String)
deriving DecidableEq

/-- Is `e` one of the exception kinds caught by
`except (TypeError, ValueError)`? -/
def caughtVT : PyErr → Bool
  | .typeError _ => true
  | .valueError _ => true
  | _ => false

/-- The body of the `try` block of `cast_var`: `int(var)` / `float(var)` /
`str(var)` according to `cast_type`, and
`raise TypeError('Cast failed -- unsupported type.')` for any other
`cast_type`. -/
def castAttempt (var : String) : CastType → Except PyErr PyVal
  | CastType.INT =>
    match pyInt var with
    | .ok n => .ok (.int n)
    | .error e => .error e
  | CastType.FLOAT =>
    match pyFloat var with
    | .ok x => .ok (.float x)
    | .error e => .error e
  | CastType.STRING => .ok (.str var)
  | CastType.UNSUPPORTED => .error (.typeError "Cast failed -- unsupported type.")

/-- `cast_var(var, cast_type, fallback_to_original)` from `config.py`.
The whole cast, including the `raise TypeError` for an unrecognized
`cast_type`, sits inside the `try`/`except (TypeError, ValueError)` block,
whose handler returns the original `var` when `fallback_to_original` is
true and re-raises otherwise.  `var` is modelled as the raw configuration
string. -/
def cast_var (var : String) (cast_type : CastType) (fallback_to_original : Bool) :
    Except PyErr PyVal :=
  match castAttempt var cast_type with
  | .ok v => .ok v
  | .error e => if caughtVT e && fallback_to_original then .ok (.str var) else .error e

/-- The per-element body of the loop in `parse_list_from_conf_string`:
`val = val.strip().strip('\x27"')` when `strip_quotes`, then
`cast_var(val.strip(), val_type)`, appending on success, skipping the
element when a `ValueError` or `TypeError` is caught, and propagating any
other exception (none can occur, as proved below). -/
def parseListLoop (val_type : CastType) (strip_quotes : Bool) :
    List String → Except PyErr (List PyVal)
  | [] => .ok []
  | v :: rest =>
    let v1 := if strip_quotes then pyStripChars quoteChars (pyStrip v) else v
    match cast_var (pyStrip v1) val_type false with
    | .ok cv =>
      match parseListLoop val_type strip_quotes rest with
      | .ok l => .ok (cv :: l)
      | .error e => .error e
    | .error e =>
      if caughtVT e then parseListLoop val_type strip_quotes rest else .error e

/-- The value that the loop of `parse_list_from_conf_string` contributes
for one raw element: `some` the cast value, or `none` when the cast raises
and the element is silently skipped. -/
def castToken (val_type : CastType) (strip_quotes : Bool) (v : String) : Option PyVal :=
  match cast_var (pyStrip (if strip_quotes then pyStripChars quoteChars (pyStrip v) else v))
      val_type false with
  | .ok cv => some cv
  | .error _ => none

/-- `parse_list_from_conf_string(conf_str, val_type, delim, strip_quotes)`
from `config.py`.  `conf_str` is `Option String` (`none` models Python
`None`); `if not conf_str` is the falsy test, true for `None` and for the
empty string. -/
def parse_list_from_conf_string (conf_str : Option String) (val_type : CastType)
    (delim : String) (strip_quotes : Bool) : Except PyErr (List PyVal) :=
  match conf_str with
  | none => .ok []
  | some s =>
    if s = "" then .ok []
    else
      match pySplit s delim with
      | .error e => .error e
      | .ok val_raw_list => parseListLoop val_type strip_quotes val_raw_list

/-- The separator of composite secrets section names. -/
def secretsSep : String := "::"

/-- Does one secrets section name match the queried submodule and main id?
This is the body of the loop of `get_matching_secrets_id`: the name is
split on `::`; the two-element unpacking raises `ValueError` (silently
skipped, hence `false`) for any other number of parts; both components are
compared after `.strip().lower()` on each side. -/
def secret_section_matches (submod main_id name : String) : Bool :=
  match pySplitRaw name secretsSep with
  | [a, b] =>
    pyLower (pyStrip a) == pyLower (pyStrip submod) &&
    pyLower (pyStrip b) == pyLower (pyStrip main_id)
  | _ => false

/-- `get_matching_secrets_id(secrets_cp, submod, main_id)` from
`config.py`.  The secrets `ConfigParser` is modelled by the list of its
section names in iteration order.  Returns the first section name whose
`::`-split yields exactly two parts matching the query case-insensitively
and whitespace-trimmed, else `None`. -/
def get_matching_secrets_id (secrets_cp : List String) (submod main_id : String) :
    Option String :=
  match secrets_cp with
  | [] => none
  | name :: rest =>
    match pySplitRaw name secretsSep with
    | [a, b] =>
      if pyLower (pyStrip a) == pyLower (pyStrip submod) &&
          pyLower (pyStrip b) == pyLower (pyStrip main_id)
      then some name
      else get_matching_secrets_id rest submod main_id
    | _ => get_matching_secrets_id rest submod main_id

/-- The file system seen by the config readers: an association from file
paths to file contents (a list of lines).  A path absent from the list is a
nonexistent file. -/
abbrev FileSystem : Type := List (String × List String)

/-- Does the string start with a path separator? -/
def startsWithSlash (s : String) : Bool :=
  match s.data with
  | c :: _ => c = '/'
  | [] => false

/-- Does the string end with a path separator? -/
def endsWithSlash (s : String) : Bool :=
  match s.data.getLast? with
  | some c => c = '/'
  | none => false

/-- Models `os.path.join(base, rel)` for the POSIX cases the config readers
use: an absolute `rel` replaces `base`; otherwise a single separator is
inserted unless `base` is empty or already ends in one. -/
def os_path_join (base rel : String) : String :=
  if startsWithSlash rel then rel
  else if base = "" || endsWithSlash base then base ++ rel
  else base ++ "/" ++ rel

/-- A parsed configuration: the section names in file order, each with its
key/value pairs.  This models the section-set of a Python `ConfigParser`
(its implicit `DEFAULT` section plays no role in the verified claims). -/
abbrev ConfigParser : Type := List (String × List (String × String))

/-- Appends one key/value pair to the named section of a parsed config. -/
def addKV (sections : ConfigParser) (sec key val : String) : ConfigParser :=
  match sections with
  | [] => [(sec, [(key, val)])]
  | (n, kvs) :: rest =>
    if n = sec then (n, kvs ++ [(key, val)]) :: rest
    else (n, kvs) :: addKV rest sec key val

/-- Splits a stripped config line at its first `=` or `:` delimiter into a
stripped key and value; `none` when the line has no delimiter. -/
def splitKV (t : String) : Option (String × String) :=
  match t.data.findIdx? (fun c => c = '=' || c = ':') with
  | some i => some (pyStrip (String.mk (t.data.take i)), pyStrip (String.mk (t.data.drop (i + 1))))
  | none => none

/-- Models the `configparser` line grammar in the fragment the claims
exercise: blank lines and `#`/`;` comment lines are skipped, `[name]`
lines open a section (a duplicate section name is an error, as in strict
mode), `key = value` / `key : value` lines extend the current section (an
error before any section header), and anything else is a parse error.
Continuation lines and interpolation are not modelled; no verified claim
depends on them. -/
def parseConfAux : List String → Option String → ConfigParser → Except PyErr ConfigParser
  | [], _, acc => .ok acc
  | line :: rest, cur, acc =>
    let t := pyStrip line
    if t = "" || t.startsWith "#" || t.startsWith ";" then parseConfAux rest cur acc
    else if t.startsWith "[" && t.endsWith "]" && 2 < t.length then
      let name := (t.drop 1).dropRight 1
      if (acc.map Prod.fst).contains name then
        .error (.parseError ("section " ++ name ++ " already exists"))
      else parseConfAux rest (some name) (acc ++ [(name, [])])
    else
      match splitKV t with
      | some kv =>
        match cur with
        | some sec => parseConfAux rest cur (addKV acc sec kv.1 kv.2)
        | none => .error (.parseError ("missing section header: " ++ t))
      | none => .error (.parseError ("invalid line: " ++ t))

/-- Parses the lines of a config file from the top. -/
def parseConfLines (lines : List String) : Except PyErr ConfigParser :=
  parseConfAux lines none []

/-- `read_conf_file(conf_rel_file, conf_base_dir)` from `config.py`.
It calls `ConfigParser.read(path)`, which silently ignores a file that
cannot be opened: a nonexistent file yields an empty parser. -/
def read_conf_file (fs : FileSystem) (conf_rel_file conf_base_dir : String) :
    Except PyErr ConfigParser :=
  let conf_file := os_path_join conf_base_dir conf_rel_file
  match fs.lookup conf_file with
  | none => .ok []
  | some lines => parseConfLines lines

/-- `read_conf_file_fake_header(conf_rel_file, conf_base_dir, fake_section)`
from `config.py`.  It calls `open(conf_file)` directly — a nonexistent file
raises `FileNotFoundError` — and parses
`itertools.chain(['[' + fake_section + ']'], file)`, i.e. the file's lines
with a synthesized section-header line prepended. -/
def read_conf_file_fake_header (fs : FileSystem)
    (conf_rel_file conf_base_dir fake_section : String) : Except PyErr ConfigParser :=
  let conf_file := os_path_join conf_base_dir conf_rel_file
  match fs.lookup conf_file with
  | none => .error (.fileNotFoundError conf_file)
  | some lines => parseConfLines (("[" ++ fake_section ++ "]") :: lines)

/-- The state of a `Database` adapter instance (`database_meta.py`).  Its
fields are exactly the attributes assigned by `Database.__init__`, plus
`typeNames`, which models the abstract classmethod `get_type_names()`
that each concrete subclass overrides with its static list of type
aliases. -/
structure Database where
  _env : String
  _cp_db_id : String
  _cp_secrets_id : String
  typeNames : List String

/-- `Database.__init__(self, env, cp_db_id, cp_secrets_id, host, port,
database)` from `database_meta.py`.  The body assigns only `_env`,
`_cp_db_id` and `_cp_secrets_id`; the `host`, `port` and `database`
arguments are not stored (the parameter list carries
`pylint: disable=unused-argument`).  `typeNames` stands for the concrete
subclass's `get_type_names()` result. -/
def Database.init (typeNames : List String) (env cp_db_id cp_secrets_id : String)
    (_host : String) (_port : Int) (_database : String) : Database :=
  { _env := env, _cp_db_id := cp_db_id, _cp_secrets_id := cp_secrets_id,
    typeNames := typeNames }

/-- Does the `env` criterion rule the instance out?  (`env is not None and
env != self._env` in the source.) -/
def envMismatch (self_env : String) : Option String → Bool
  | none => false
  | some e => e != self_env

/-- Does the `db_type` criterion rule the instance out?  (`db_type is not
None and db_type not in self.get_type_names()` in the source.) -/
def typeMismatch (names : List String) : Option String → Bool
  | none => false
  | some t => !(names.contains t)

/-- `Database.matches_id_criteria(self, db_id, env, db_type)` from
`database_meta.py`: `assert db_id is not None` (an `AssertionError`, the
spec's `InvalidCriteriaError`), then each non-`None` criterion must match
(`db_id` by equality with `_cp_db_id`, `env` by equality with `_env`,
`db_type` by membership in `get_type_names()`). -/
def matches_id_criteria (self : Database) (db_id env db_type : Option String) :
    Except PyErr Bool :=
  match db_id with
  | none => .error .assertionError
  | some i =>
    if i != self._cp_db_id then .ok false
    else if envMismatch self._env env then .ok false
    else if typeMismatch self.typeNames db_type then .ok false
    else .ok true

/-- Modelled from the spec (claim C7's reading, not from the source): strips
exactly ONE layer of MATCHING leading/trailing quote characters — the first
and last characters are removed only when they are the same quote
character.  Used solely to refute that reading against the source's
`str.strip('\x27"')`. -/
def spec_strip_one_quote_layer (s : String) : String :=
  match s.data.head?, s.data.getLast? with
  | some c, some d =>
    if 2 ≤ s.data.length ∧ isQuoteChar c = true ∧ c = d then
      String.mk (s.data.drop 1 |>.dropLast)
    else s
  | _, _ => s

/-- The single-quote character. -/
def sq1 : Char := Char.ofNat 39

/-- The double-quote character. -/
def dq1 : Char := Char.ofNat 34

/-- The example token `''a''` (two single quotes on each side of `a`). -/
def exNested : String := String.mk [sq1, sq1, 'a', sq1, sq1]

/-- The example token `"a'` (mismatched double/single quotes around `a`). -/
def exMismatch : String := String.mk [dq1, 'a', sq1]

/-- The example secrets section name `" Broker :: MyId "`. -/
def exBrokerSection : String := " Broker :: MyId "

/-- A concrete example adapter instance used in witnesses: environment
`test`, config id `mydb`, secrets id `sec`, subclass type names
`postgres`. -/
def exDb : Database :=
  { _env := "test", _cp_db_id := "mydb", _cp_secrets_id := "sec",
    typeNames := ["postgres"] }

/-! ### Supporting lemmas -/

/-- `int()` only fails with `ValueError`. -/
theorem pyInt_error (s : String) (e : PyErr) (h : pyInt s = .error e) :
    caughtVT e = true := by
  unfold pyInt at h
  cases hc : pyIntCore s <;> rw [hc] at h
  · injection h with h2
    subst h2
    rfl
  · exact absurd h (by simp)

/-- `float()` only fails with `ValueError`. -/
theorem pyFloat_error (s : String) (e : PyErr) (h : pyFloat s = .error e) :
    caughtVT e = true := by
  unfold pyFloat at h
  cases hc : pyFloatCore s <;> rw [hc] at h
  · injection h with h2
    subst h2
    rfl
  · exact absurd h (by simp)

/-- The `try`-block body of `cast_var` only fails with exceptions of the
kinds its `except` clause catches (`TypeError`, `ValueError`). -/
theorem castAttempt_error (v : String) (ct : CastType) (e : PyErr)
    (h : castAttempt v ct = .error e) : caughtVT e = true := by
  cases ct
  case INT =>
    simp only [castAttempt] at h
    cases hi : pyInt v <;> rw [hi] at h
    · injection h with h2
      subst h2
      exact pyInt_error v _ hi
    · exact absurd h (by simp)
  case FLOAT =>
    simp only [castAttempt] at h
    cases hi : pyFloat v <;> rw [hi] at h
    · injection h with h2
      subst h2
      exact pyFloat_error v _ hi
    · exact absurd h (by simp)
  case STRING => exact absurd h (by simp [castAttempt])
  case UNSUPPORTED =>
    simp only [castAttempt] at h
    injection h with h2
    subst h2
    rfl

/-- `cast_var` only fails with `TypeError` or `ValueError`. -/
theorem cast_var_error_caught (v : String) (ct : CastType) (fb : Bool) (e : PyErr)
    (h : cast_var v ct fb = .error e) : caughtVT e = true := by
  unfold cast_var at h
  cases ha : castAttempt v ct <;> rw [ha] at h <;> dsimp only at h
  · have hc := castAttempt_error v ct _ ha
    rw [hc] at h
    cases fb
    · simp only [Bool.and_false, Bool.false_eq_true, if_false] at h
      injection h with h2
      subst h2
      exact hc
    · exact absurd h (by simp)
  · exact absurd h (by simp)

/-- The element loop of `parse_list_from_conf_string` never propagates an
exception: it returns exactly the per-element cast results in input order,
with the failing elements dropped. -/
theorem parseListLoop_eq_filterMap (vt : CastType) (sq : Bool) (l : List String) :
    parseListLoop vt sq l = .ok (l.filterMap (castToken vt sq)) := by
  induction l with
  | nil => rfl
  | cons v rest ih =>
    cases hc : cast_var
        (pyStrip (if sq then pyStripChars quoteChars (pyStrip v) else v)) vt false with
    | ok cv =>
      have ht : castToken vt sq v = some cv := by
        simp only [castToken]
        rw [hc]
      simp only [parseListLoop, List.filterMap_cons, ht, hc, ih]
    | error e =>
      have ht : castToken vt sq v = none := by
        simp only [castToken]
        rw [hc]
      have hcaught := cast_var_error_caught _ _ _ _ hc
      simp only [parseListLoop, List.filterMap_cons, ht, hc, hcaught, if_true, ih]

/-- `get_matching_secrets_id` is `List.find?` of the per-section match
test, i.e. it returns the first match in iteration order. -/
theorem get_matching_secrets_id_eq_find (names : List String) (s m : String) :
    get_matching_secrets_id names s m = names.find? (secret_section_matches s m) := by
  induction names with
  | nil => rfl
  | cons name rest ih =>
    rw [List.find?_cons]
    rcases hs : pySplitRaw name secretsSep with _ | ⟨a, _ | ⟨b, _ | ⟨c, t⟩⟩⟩ <;>
      simp only [get_matching_secrets_id, secret_section_matches, hs] <;>
      try exact ih
    cases hcond : (pyLower (pyStrip a) == pyLower (pyStrip s) &&
        pyLower (pyStrip b) == pyLower (pyStrip m)) <;>
      simp [hcond, ih]

/-- The first remaining element after `dropWhile p` does not satisfy `p`. -/
theorem head?_dropWhile_false (p : Char → Bool) (l : List Char) :
    ∀ c, (l.dropWhile p).head? = some c → p c = false := by
  induction l with
  | nil =>
    intro c h
    simp at h
  | cons a l ih =>
    intro c h
    by_cases hp : p a = true
    · rw [List.dropWhile_cons, if_pos hp] at h
      exact ih c h
    · rw [List.dropWhile_cons, if_neg hp] at h
      simp only [List.head?_cons, Option.some.injEq] at h
      subst h
      exact (Bool.not_eq_true (p a)) ▸ hp

/-- `stripBothWith p` removes a prefix and a suffix of characters
satisfying `p` and nothing else. -/
theorem stripBothWith_decomp (p : Char → Bool) (l : List Char) :
    ∃ pre suf, l = pre ++ stripBothWith p l ++ suf ∧
      (∀ c ∈ pre, p c = true) ∧ (∀ c ∈ suf, p c = true) := by
  refine ⟨l.takeWhile p, ((l.dropWhile p).reverse.takeWhile p).reverse, ?_, ?_, ?_⟩
  · have h2 := List.takeWhile_append_dropWhile p (l.dropWhile p).reverse
    have h3 : l.dropWhile p =
        stripBothWith p l ++ ((l.dropWhile p).reverse.takeWhile p).reverse := by
      conv_lhs => rw [← List.reverse_reverse (l.dropWhile p), ← h2]
      rw [List.reverse_append]
      rfl
    conv_lhs => rw [← List.takeWhile_append_dropWhile p l, h3]
    rw [List.append_assoc]
  · intro c hc
    exact List.mem_takeWhile_imp hc
  · intro c hc
    rw [List.mem_reverse] at hc
    exact List.mem_takeWhile_imp hc

/-- The first character kept by `stripBothWith p` does not satisfy `p`. -/
theorem stripBothWith_head? (p : Char → Bool) (l : List Char) (c : Char)
    (h : (stripBothWith p l).head? = some c) : p c = false := by
  rw [stripBothWith, List.head?_reverse] at h
  have hne : List.dropWhile p (l.dropWhile p).reverse ≠ [] := by
    intro h0
    rw [h0] at h
    simp at h
  have h4 := List.takeWhile_append_dropWhile p (l.dropWhile p).reverse
  have h5 : (List.dropWhile p (l.dropWhile p).reverse).getLast? =
      (l.dropWhile p).reverse.getLast? := by
    conv_rhs => rw [← h4]
    exact (List.getLast?_append_of_ne_nil _ hne).symm
  rw [h5, List.getLast?_reverse] at h
  exact head?_dropWhile_false p l c h

/-- The last character kept by `stripBothWith p` does not satisfy `p`. -/
theorem stripBothWith_getLast? (p : Char → Bool) (l : List Char) (c : Char)
    (h : (stripBothWith p l).getLast? = some c) : p c = false := by
  rw [stripBothWith, List.getLast?_reverse] at h
  exact head?_dropWhile_false p (l.dropWhile p).reverse c h

/-- The `env` criterion does not rule the instance out exactly when it is
absent or equal to the instance's environment. -/
theorem envMismatch_false_iff (se : String) (env : Option String) :
    envMismatch se env = false ↔ (env = none ∨ env = some se) := by
  cases env <;> simp [envMismatch, bne_eq_false_iff_eq]

/-- The `db_type` criterion does not rule the instance out exactly when it
is absent or a member of the type-name list. -/
theorem typeMismatch_false_iff (names : List String) (dbt : Option String) :
    typeMismatch names dbt = false ↔
      (dbt = none ∨ ∃ t, dbt = some t ∧ t ∈ names) := by
  cases dbt <;> simp [typeMismatch, List.contains, List.elem_iff]

/-- With a non-`None` id, `matches_id_criteria` returns the conjunction of
the three criterion tests. -/
theorem matches_id_criteria_some (db : Database) (i : String) (env db_type : Option String) :
    matches_id_criteria db (some i) env db_type =
      .ok ((i == db._cp_db_id) && !envMismatch db._env env &&
        !typeMismatch db.typeNames db_type) := by
  simp only [matches_id_criteria, bne]
  rcases Bool.eq_false_or_eq_true (i == db._cp_db_id) with h1 | h1 <;>
    rcases Bool.eq_false_or_eq_true (envMismatch db._env env) with h2 | h2 <;>
    rcases Bool.eq_false_or_eq_true (typeMismatch db.typeNames db_type) with h3 | h3 <;>
    simp [h1, h2, h3]

/-- With a non-`None` id, `matches_id_criteria` answers `True` exactly when
every provided criterion matches. -/
theorem matches_id_criteria_true_iff (db : Database) (i : String)
    (env db_type : Option String) :
    matches_id_criteria db (some i) env db_type = .ok true ↔
      (i = db._cp_db_id ∧ (env = none ∨ env = some db._env) ∧
        (db_type = none ∨ ∃ t, db_type = some t ∧ t ∈ db.typeNames)) := by
  rw [matches_id_criteria_some]
  simp only [Except.ok.injEq, Bool.and_eq_true, beq_iff_eq, Bool.not_eq_true']
  rw [envMismatch_false_iff, typeMismatch_false_iff]
  tauto

/-! ### Claims -/

/-- C1: the claim says an unsupported `cast_type` always fails with the
unsupported-kind error regardless of `fallback_to_original`.  On the code
this is false: the `raise TypeError` sits inside the `try` whose handler
returns the original value when `fallback_to_original` is true, so
`cast_var('abc', UNSUPPORTED, fallback_to_original=True)` returns `'abc'`;
only with `fallback_to_original=False` does the `TypeError` propagate. -/
theorem cast_var_unsupported_kind_fallback :
    cast_var "abc" CastType.UNSUPPORTED true = .ok (PyVal.str "abc") ∧
    (∀ (v : String) (fb : Bool),
      cast_var v CastType.UNSUPPORTED fb =
        if fb then .ok (PyVal.str v)
        else .error (.typeError "Cast failed -- unsupported type.")) :=
  ⟨rfl, fun v fb => by cases fb <;> rfl⟩

/-- C2 (amended): on a nonexistent file `read_conf_file` returns an empty
section-set without hard failure, but `read_conf_file_fake_header` opens
the file directly and fails with `FileNotFoundError`. -/
theorem read_conf_missing_file (fs : FileSystem) (rel base fake : String)
    (h : fs.lookup (os_path_join base rel) = none) :
    read_conf_file fs rel base = .ok [] ∧
    read_conf_file_fake_header fs rel base fake =
      .error (.fileNotFoundError (os_path_join base rel)) := by
  constructor
  · simp only [read_conf_file, h]
  · simp only [read_conf_file_fake_header, h]

/-- C2 (counterexample): on an empty file system,
`read_conf_file_fake_header` raises `FileNotFoundError` instead of
returning an empty section-set, refuting the claim that it tolerates a
nonexistent file like `read_conf_file` does. -/
theorem read_conf_fake_header_missing_file_raises :
    read_conf_file_fake_header [] "databases.conf" "/conf" "fake" =
      .error (.fileNotFoundError "/conf/databases.conf") := rfl

/-- C2 (witness): the amended theorem applied to the empty file system. -/
theorem read_conf_missing_file_witness :
    (([] : FileSystem).lookup (os_path_join "/conf" "databases.conf") = none) ∧
    (read_conf_file [] "databases.conf" "/conf" = .ok [] ∧
      read_conf_file_fake_header [] "databases.conf" "/conf" "fake" =
        .error (.fileNotFoundError (os_path_join "/conf" "databases.conf"))) :=
  ⟨rfl, read_conf_missing_file [] "databases.conf" "/conf" "fake" rfl⟩

/-- C3: `matches_id_criteria` fails with the assertion error (the spec's
`InvalidCriteriaError`) exactly when the id criterion is `None`; with an id
it returns `True` iff the id equals `_cp_db_id`, the `env` criterion is
absent or equal to `_env`, and the `db_type` criterion is absent or a
member of `get_type_names()`; otherwise it returns `False`. -/
theorem matches_id_criteria_spec (db : Database) (env db_type : Option String) :
    matches_id_criteria db none env db_type = .error PyErr.assertionError ∧
    ∀ i : String,
      (matches_id_criteria db (some i) env db_type = .ok true ↔
        (i = db._cp_db_id ∧ (env = none ∨ env = some db._env) ∧
          (db_type = none ∨ ∃ t, db_type = some t ∧ t ∈ db.typeNames))) ∧
      (matches_id_criteria db (some i) env db_type = .ok false ↔
        ¬(i = db._cp_db_id ∧ (env = none ∨ env = some db._env) ∧
          (db_type = none ∨ ∃ t, db_type = some t ∧ t ∈ db.typeNames))) := by
  refine ⟨rfl, fun i => ⟨matches_id_criteria_true_iff db i env db_type, ?_⟩⟩
  have h1 := matches_id_criteria_true_iff db i env db_type
  rw [matches_id_criteria_some] at h1 ⊢
  simp only [Except.ok.injEq] at h1 ⊢
  rw [← h1]
  exact Iff.of_eq (Bool.not_eq_true _).symm

/-- C3 (witness): the criteria contract evaluated on a concrete
instance. -/
theorem matches_id_criteria_spec_witness :
    matches_id_criteria exDb none none none = .error PyErr.assertionError ∧
    matches_id_criteria exDb (some "mydb") (some "test") (some "postgres") = .ok true ∧
    matches_id_criteria exDb (some "other") none none = .ok false :=
  ⟨(matches_id_criteria_spec exDb none none).1,
   (((matches_id_criteria_spec exDb (some "test") (some "postgres")).2 "mydb").1).mpr
     ⟨rfl, Or.inr rfl, Or.inr ⟨"postgres", rfl, by decide⟩⟩,
   (((matches_id_criteria_spec exDb none none).2 "other").2).mpr
     (fun hcon => absurd hcon.1 (by decide))⟩

/-- C4: `get_matching_secrets_id` compares both composite-key components
case-insensitively and whitespace-trimmed (queries equal up to
`.strip().lower()` give identical results) and returns the first matching
section identifier in iteration order (`List.find?`). -/
theorem get_matching_secrets_id_insensitive_first_match
    (names : List String) (s1 m1 s2 m2 : String)
    (hs : pyLower (pyStrip s1) = pyLower (pyStrip s2))
    (hm : pyLower (pyStrip m1) = pyLower (pyStrip m2)) :
    get_matching_secrets_id names s1 m1 = get_matching_secrets_id names s2 m2 ∧
    get_matching_secrets_id names s1 m1 =
      names.find? (secret_section_matches s1 m1) := by
  have key : secret_section_matches s1 m1 = secret_section_matches s2 m2 := by
    funext name
    simp only [secret_section_matches, hs, hm]
  refine ⟨?_, get_matching_secrets_id_eq_find names s1 m1⟩
  rw [get_matching_secrets_id_eq_find, get_matching_secrets_id_eq_find, key]

/-- C4 (witness): the section `" Broker :: MyId "` matches the query
`("broker", "myid")`, and the comparison is case/whitespace-insensitive. -/
theorem get_matching_secrets_id_insensitive_first_match_witness :
    (pyLower (pyStrip "broker") = pyLower (pyStrip " Broker ") ∧
      pyLower (pyStrip "myid") = pyLower (pyStrip " MyId ")) ∧
    get_matching_secrets_id [exBrokerSection] "broker" "myid" =
      get_matching_secrets_id [exBrokerSection] " Broker " " MyId " ∧
    get_matching_secrets_id [exBrokerSection] "broker" "myid" =
      some exBrokerSection :=
  ⟨⟨by decide, by decide⟩,
   (get_matching_secrets_id_insensitive_first_match [exBrokerSection]
     "broker" "myid" " Broker " " MyId " (by decide) (by decide)).1,
   by decide⟩

/-- C5: a section identifier whose `::`-split does not yield exactly two
parts is skipped without error (the two-element unpacking raises a
`ValueError` that the loop catches with `continue`), and the function
returns `None` exactly when no section identifier matches. -/
theorem get_matching_secrets_id_skips_and_none (name s m : String)
    (rest names : List String)
    (hsplit : (pySplitRaw name secretsSep).length ≠ 2) :
    get_matching_secrets_id (name :: rest) s m = get_matching_secrets_id rest s m ∧
    (get_matching_secrets_id names s m = none ↔
      ∀ n2 ∈ names, secret_section_matches s m n2 = false) := by
  constructor
  · have hmatch : secret_section_matches s m name = false := by
      rcases hs : pySplitRaw name secretsSep with _ | ⟨a, _ | ⟨b, _ | ⟨c, t⟩⟩⟩
      · simp [secret_section_matches, hs]
      · simp [secret_section_matches, hs]
      · rw [hs] at hsplit
        simp at hsplit
      · simp [secret_section_matches, hs]
    rw [get_matching_secrets_id_eq_find, get_matching_secrets_id_eq_find,
      List.find?_cons, hmatch]
  · rw [get_matching_secrets_id_eq_find]
    simp only [List.find?_eq_none, Bool.not_eq_true]

/-- C5 (witness): a section name without the `::` separator is skipped, and
the no-match case yields `None` per the iff. -/
theorem get_matching_secrets_id_skips_and_none_witness :
    ((pySplitRaw "plaindb" secretsSep).length ≠ 2) ∧
    (get_matching_secrets_id ["plaindb"] "database" "mydb" =
      get_matching_secrets_id [] "database" "mydb" ∧
      (get_matching_secrets_id ["plaindb"] "database" "mydb" = none ↔
        ∀ n2 ∈ ["plaindb"], secret_section_matches "database" "mydb" n2 = false)) :=
  ⟨by decide,
   get_matching_secrets_id_skips_and_none "plaindb" "database" "mydb" []
     ["plaindb"] (by decide)⟩

/-- C6: `parse_list_from_conf_string` yields `[]` on `None` and on the
empty string for every cast kind; on non-empty input it splits on the
delimiter and returns, in input order, exactly the elements whose
trim/strip-quotes/trim/cast pipeline succeeds (failures silently dropped);
in particular `"1, 2, , 4"` with `INT` yields `[1, 2, 4]`. -/
theorem parse_list_spec (vt : CastType) (delim : String) (sq : Bool)
    (hd : delim ≠ "") :
    parse_list_from_conf_string none vt delim sq = .ok [] ∧
    parse_list_from_conf_string (some "") vt delim sq = .ok [] ∧
    (∀ s, s ≠ "" →
      parse_list_from_conf_string (some s) vt delim sq =
        .ok ((pySplitRaw s delim).filterMap (castToken vt sq))) ∧
    parse_list_from_conf_string (some "1, 2, , 4") CastType.INT "," false =
      .ok [PyVal.int 1, PyVal.int 2, PyVal.int 4] := by
  refine ⟨rfl, rfl, fun s hs => ?_, rfl⟩
  have hsp : pySplit s delim = .ok (pySplitRaw s delim) := by simp [pySplit, hd]
  simp only [parse_list_from_conf_string, if_neg hs, hsp]
  exact parseListLoop_eq_filterMap vt sq (pySplitRaw s delim)

/-- C6 (witness): the split/cast/drop pipeline on the spec's example. -/
theorem parse_list_spec_witness :
    (("," : String) ≠ "") ∧ (("1, 2, , 4" : String) ≠ "") ∧
    parse_list_from_conf_string (some "1, 2, , 4") CastType.INT "," false =
      .ok ((pySplitRaw "1, 2, , 4" ",").filterMap (castToken CastType.INT false)) :=
  ⟨by decide, by decide,
   (parse_list_spec CastType.INT "," false (by decide)).2.2.1 "1, 2, , 4" (by decide)⟩

/-- C7 (amended): with `strip_quotes` enabled each trimmed token goes
through `str.strip('\x27"')`, which removes ALL leading and trailing quote
characters — nested layers and mismatched quotes included — never leaving a
boundary quote character, and removing nothing in the interior; so `''a''`
and `"a'` both cast to the string `a`. -/
theorem parse_list_strip_quotes_strips_all_layers (v : String) :
    (∃ pre suf,
      (pyStrip v).data = pre ++ (pyStripChars quoteChars (pyStrip v)).data ++ suf ∧
      (∀ c ∈ pre, isQuoteChar c = true) ∧ (∀ c ∈ suf, isQuoteChar c = true)) ∧
    (∀ c, (pyStripChars quoteChars (pyStrip v)).data.head? = some c →
      isQuoteChar c = false) ∧
    (∀ c, (pyStripChars quoteChars (pyStrip v)).data.getLast? = some c →
      isQuoteChar c = false) ∧
    parse_list_from_conf_string (some exNested) CastType.STRING "," true =
      .ok [PyVal.str "a"] ∧
    parse_list_from_conf_string (some exMismatch) CastType.STRING "," true =
      .ok [PyVal.str "a"] := by
  refine ⟨?_, ?_, ?_, rfl, rfl⟩
  · exact stripBothWith_decomp (fun c => quoteChars.contains c) (pyStrip v).data
  · intro c hc
    exact stripBothWith_head? _ _ c hc
  · intro c hc
    exact stripBothWith_getLast? _ _ c hc

/-- C7 (counterexample): the claim's one-matching-layer stripping predicts
`'a'` for the token `''a''` and no stripping for the mismatched token
`"a'`; the code produces `a` for both, so the claim is false on both
inputs. -/
theorem parse_list_strip_quotes_not_one_layer :
    (parse_list_from_conf_string (some exNested) CastType.STRING "," true =
      .ok [PyVal.str "a"] ∧
      spec_strip_one_quote_layer (pyStrip exNested) ≠ "a") ∧
    (parse_list_from_conf_string (some exMismatch) CastType.STRING "," true =
      .ok [PyVal.str "a"] ∧
      spec_strip_one_quote_layer (pyStrip exMismatch) ≠ "a") :=
  ⟨⟨rfl, by decide⟩, ⟨rfl, by decide⟩⟩

/-- C7 (witness): the amended theorem instantiated at the nested-quotes
token. -/
theorem parse_list_strip_quotes_strips_all_layers_witness :
    (∃ pre suf,
      (pyStrip exNested).data =
        pre ++ (pyStripChars quoteChars (pyStrip exNested)).data ++ suf ∧
      (∀ c ∈ pre, isQuoteChar c = true) ∧ (∀ c ∈ suf, isQuoteChar c = true)) ∧
    parse_list_from_conf_string (some exNested) CastType.STRING "," true =
      .ok [PyVal.str "a"] :=
  ⟨(parse_list_strip_quotes_strips_all_layers exNested).1,
   (parse_list_strip_quotes_strips_all_layers exNested).2.2.2.1⟩

/-- C8: the claim says the instance produced by `Database.__init__` holds
the `host`, `port` and `database` it was given.  On the code this is
false: the initializer assigns only `_env`, `_cp_db_id` and
`_cp_secrets_id`, so instances built with different connection parameters
are identical — while the class docstring lists host/port/database among
the instance attributes. -/
theorem database_init_discards_connection_params :
    (∀ (tn : List String) (e c s h1 d1 h2 d2 : String) (p1 p2 : Int),
      Database.init tn e c s h1 p1 d1 = Database.init tn e c s h2 p2 d2) ∧
    (∀ (tn : List String) (e c s hx dx : String) (px : Int),
      (Database.init tn e c s hx px dx)._env = e ∧
      (Database.init tn e c s hx px dx)._cp_db_id = c ∧
      (Database.init tn e c s hx px dx)._cp_secrets_id = s) ∧
    Database.init ["postgres"] "test" "db1" "sec1" "hostA" 1234 "dbA" =
      Database.init ["postgres"] "test" "db1" "sec1" "hostB" 9999 "dbB" :=
  ⟨fun _ _ _ _ _ _ _ _ _ _ => rfl, fun _ _ _ _ _ _ _ => ⟨rfl, rfl, rfl⟩, rfl⟩

/-- C10 (amended): `parse_list_from_conf_string` never raises provided the
delimiter is non-empty (or the input is `None`/empty, which short-circuits
before splitting); every per-token failure, including the unsupported-kind
`TypeError`, is caught, so an unsupported cast kind yields `[]`.  With an
empty delimiter and a non-empty input, `str.split` raises an uncaught
`ValueError` (see the counterexample). -/
theorem parse_list_never_raises_nonempty_delim (conf_str : Option String)
    (vt : CastType) (delim : String) (sq : Bool)
    (h : delim ≠ "" ∨ conf_str = none ∨ conf_str = some "") :
    (∃ l, parse_list_from_conf_string conf_str vt delim sq = .ok l) ∧
    (∀ (s d : String), d ≠ "" →
      parse_list_from_conf_string (some s) CastType.UNSUPPORTED d sq = .ok []) := by
  constructor
  · rcases h with hd | hn | he
    · cases conf_str with
      | none => exact ⟨[], rfl⟩
      | some s =>
        by_cases hs : s = ""
        · subst hs
          exact ⟨[], rfl⟩
        · have hsp : pySplit s delim = .ok (pySplitRaw s delim) := by simp [pySplit, hd]
          refine ⟨(pySplitRaw s delim).filterMap (castToken vt sq), ?_⟩
          simp only [parse_list_from_conf_string, if_neg hs, hsp]
          exact parseListLoop_eq_filterMap vt sq _
    · subst hn
      exact ⟨[], rfl⟩
    · subst he
      exact ⟨[], rfl⟩
  · intro s d hd
    by_cases hs : s = ""
    · subst hs
      rfl
    · have hsp : pySplit s d = .ok (pySplitRaw s d) := by simp [pySplit, hd]
      simp only [parse_list_from_conf_string, if_neg hs, hsp]
      rw [parseListLoop_eq_filterMap]
      congr 1
      rw [List.filterMap_eq_nil_iff]
      intro a _
      rfl

/-- C10 (counterexample): with a non-empty input and an empty delimiter,
the `ValueError` from `str.split('')` escapes
`parse_list_from_conf_string` (the per-token handler never runs), refuting
"never raises" for every delimiter. -/
theorem parse_list_empty_delim_raises :
    parse_list_from_conf_string (some "a") CastType.INT "" false =
      .error (.valueError "empty separator") := rfl

/-- C10 (witness): the amended theorem at a concrete input, delimiter and
unsupported kind. -/
theorem parse_list_never_raises_nonempty_delim_witness :
    ((("," : String) ≠ "") ∨ (some "x,y" : Option String) = none ∨
      (some "x,y" : Option String) = some "") ∧
    ((∃ l, parse_list_from_conf_string (some "x,y") CastType.INT "," false = .ok l) ∧
      (∀ (s d : String), d ≠ "" →
        parse_list_from_conf_string (some s) CastType.UNSUPPORTED d false = .ok [])) :=
  ⟨Or.inl (by decide),
   parse_list_never_raises_nonempty_delim (some "x,y") CastType.INT "," false
     (Or.inl (by decide))⟩
